import Mathlib

/-!
Verification development for the honeywell-campus-connect client-side
reliability layer.

The definitions below are a shallow embedding of three source files:
* the enterprise backend service (circuit breaker, retry with backoff,
  response cache, auth-token handling),
* the production camera service (device discovery, capability-derived
  resolution ladders, connect/disconnect/stream-end lifecycle),
* the real-time detection service (per-alert cooldown filtering and
  persistence of accepted alerts).

JavaScript `Map` objects are embedded as association lists with
JS-`Map` semantics (`set` updates in place or appends, `get` returns the
first binding, `delete` removes the binding).  Wall-clock time is an
explicit `Nat` parameter (milliseconds).  `fetch`, `getUserMedia` and the
persistence layer are oracles passed in as functions, so every run of the
embedded code is deterministic and executable.
-/

set_option autoImplicit false

universe u

/-! ## JS Map embedding -/

variable {β : Type u}

/-- JS `Map.prototype.get`: value of the first binding of the key. -/
def jmGet : List (String × β) → String → Option β
  | [], _ => none
  | (k', v) :: rest, k => if k' == k then some v else jmGet rest k

/-- JS `Map.prototype.set`: replace the first binding in place, else append. -/
def jmSet : List (String × β) → String → β → List (String × β)
  | [], k, v => [(k, v)]
  | (k', v') :: rest, k, v =>
      if k' == k then (k, v) :: rest else (k', v') :: jmSet rest k v

/-- JS `Map.prototype.delete` (maps have unique keys; we drop every binding). -/
def jmDelete : List (String × β) → String → List (String × β)
  | [], _ => []
  | (k', v) :: rest, k =>
      if k' == k then jmDelete rest k else (k', v) :: jmDelete rest k

/-- JS `Map.prototype.has`. -/
def jmHas (m : List (String × β)) (k : String) : Bool :=
  (jmGet m k).isSome

/-- The keys of a map are pairwise distinct (invariant of a JS `Map`). -/
def nodupKeys (m : List (String × β)) : Prop :=
  (m.map Prod.fst).Nodup

/-! ## JS string helpers -/

/-- Char-list version of `String.startsWith`. -/
def charsStartWith : List Char → List Char → Bool
  | [], _ => true
  | _ :: _, [] => false
  | a :: as, b :: bs => a == b && charsStartWith as bs

/-- Char-list substring test. -/
def charsContain (pat s : List Char) : Bool :=
  match s with
  | [] => charsStartWith pat []
  | c :: rest => charsStartWith pat (c :: rest) || charsContain pat rest

/-- JS `String.prototype.includes`. -/
def strIncludes (s pat : String) : Bool :=
  charsContain pat.toList s.toList

/-- JS `x || d` on an optional number (`0`, like `undefined`, is falsy). -/
def jsOr (x : Option Nat) (d : Nat) : Nat :=
  match x with
  | some v => if v == 0 then d else v
  | none => d

/-- JS `s || d` on an optional string (`""`, like `undefined`, is falsy). -/
def jsOrStr (x : Option String) (d : String) : String :=
  match x with
  | some s => if s == "" then d else s
  | none => d

/-- The serialized empty JS object, `JSON.stringify(x7b x7d)`. -/
def jsonEmpty : String := "\x7b\x7d"

/-! ## Enterprise backend service (part_011)

State of the singleton `EnterpriseBackendService` that the claims touch:
the auth token, the circuit-breaker record, and the response cache.
Metrics and the WebSocket live outside every claim and are not embedded.
-/

/-- `retryConfig.maxRetries`. -/
def maxRetries : Nat := 3

/-- `retryConfig.baseDelay` (ms). -/
def baseDelay : Nat := 1000

/-- `retryConfig.maxDelay` (ms). -/
def maxDelay : Nat := 10000

/-- `circuitBreaker.failureThreshold`. -/
def failureThreshold : Nat := 5

/-- `circuitBreaker.resetTimeout` (ms). -/
def resetTimeout : Nat := 60000

/-- `cacheConfig.defaultTTL` (ms). -/
def defaultTTL : Nat := 300000

/-- `cacheConfig.maxSize`. -/
def cacheMaxSize : Nat := 1000

/-- One cache entry: `setCache` stores the payload and an absolute expiry. -/
structure CacheEntry where
  data : String
  expires : Nat
  deriving Repr, DecidableEq

/-- The mutable fields of `EnterpriseBackendService` used by the claims.
The circuit-breaker `state` is kept as the source's string
(`"closed"` / `"open"` / `"half-open"`). -/
structure Svc where
  token : Option String
  cbState : String
  cbFailures : Nat
  cbLastFailure : Option Nat
  cache : List (String × CacheEntry)
  deriving Repr, DecidableEq

/-- The constructor state (stored token abstracted to `none`). -/
def initSvc : Svc :=
  { token := none, cbState := "closed", cbFailures := 0,
    cbLastFailure := none, cache := [] }

/-- Outcome of one `fetch` call: a network-level failure (the browser throws
`Failed to fetch`) or a response with status, status text and parsed body. -/
inductive FetchOutcome where
  | netFail : FetchOutcome
  | resp (status : Nat) (statusText : String) (body : String) : FetchOutcome

/-- `Response.ok`: status in the inclusive range 200-299. -/
def respOk (status : Nat) : Bool :=
  200 <= status && status < 300

/-- Result of the body of `executeRequest`'s try-block for one attempt:
either parsed data or a thrown error message.  The `unauthorized` flag
records whether `handleUnauthorized()` ran (HTTP 401 branch). -/
inductive AttemptResult where
  | success (data : String) : AttemptResult
  | failure (msg : String) (unauthorized : Bool) : AttemptResult

/-- One iteration of the `executeRequest` loop body up to the throw/return. -/
def attemptOutcome : FetchOutcome → AttemptResult
  | .netFail => .failure "Failed to fetch" false
  | .resp status statusText body =>
      if status == 401 then
        .failure "Authentication required" true
      else if !respOk status then
        .failure ("HTTP " ++ toString status ++ ": " ++ statusText) false
      else
        .success body

/-- `shouldRetry(error)`: retry on network errors and on the listed 5xx
status substrings of the error message. -/
def shouldRetry (msg : String) : Bool :=
  strIncludes msg "Failed to fetch" ||
  strIncludes msg "500" ||
  strIncludes msg "502" ||
  strIncludes msg "503" ||
  strIncludes msg "504"

/-- Accumulated result of `executeRequest`: final outcome, backoff delays
slept (in order), number of network attempts made, and whether any attempt
hit the 401 branch (clearing the token). -/
structure ExecResult where
  result : Except String String
  delays : List Nat
  attempts : Nat
  unauthorized : Bool
  deriving Repr

/-- The `for (attempt = 0; attempt <= maxRetries; attempt++)` loop of
`executeRequest`, with `fetch` as the per-attempt oracle.  `fuel` is the
number of loop iterations still permitted (`maxRetries + 1 - attempt`);
the guard `attempt < maxRetries` keeps the recursion inside the fuel. -/
def executeRequestAux (fetch : Nat → FetchOutcome) : Nat → Nat → ExecResult
  | _, 0 => { result := .error "", delays := [], attempts := 0, unauthorized := false }
  | attempt, fuel + 1 =>
      match attemptOutcome (fetch attempt) with
      | .success data =>
          { result := .ok data, delays := [], attempts := 1, unauthorized := false }
      | .failure msg unauth =>
          if attempt < maxRetries && shouldRetry msg then
            let d := min (baseDelay * 2 ^ attempt) maxDelay
            let rest := executeRequestAux fetch (attempt + 1) fuel
            { result := rest.result, delays := d :: rest.delays,
              attempts := rest.attempts + 1,
              unauthorized := unauth || rest.unauthorized }
          else
            { result := .error msg, delays := [], attempts := 1, unauthorized := unauth }

/-- `executeRequest(endpoint, options)` with the url/header plumbing
abstracted into the `fetch` oracle. -/
def executeRequest (fetch : Nat → FetchOutcome) : ExecResult :=
  executeRequestAux fetch 0 (maxRetries + 1)

/-- `getCacheKey(endpoint, options)`; `params` is the already-serialized
`options.params || x7b x7d`. -/
def getCacheKey (endpoint params : String) : String :=
  endpoint ++ "_" ++ params

/-- `getFromCache(key)`: returns the hit and the cache after the
expired-entry deletion side effect. -/
def getFromCache (cache : List (String × CacheEntry)) (key : String) (now : Nat) :
    Option String × List (String × CacheEntry) :=
  match jmGet cache key with
  | none => (none, cache)
  | some e =>
      if now > e.expires then (none, jmDelete cache key)
      else (some e.data, cache)

/-- `setCache(key, data)` with the default TTL, including the
evict-first-key branch when the map is full. -/
def setCache (cache : List (String × CacheEntry)) (key data : String) (now : Nat) :
    List (String × CacheEntry) :=
  let c :=
    if cacheMaxSize <= cache.length then
      match cache with
      | [] => []
      | (k, _) :: _ => jmDelete cache k
    else cache
  jmSet c key { data := data, expires := now + defaultTTL }

/-- `clearCache()`. -/
def clearCache (svc : Svc) : Svc :=
  { svc with cache := [] }

/-- `options.method !== 'POST' / 'PUT' / 'DELETE'` is the source's
read-shaped test; this is its complement. -/
def isMutatingMethod (m : String) : Bool :=
  m == "POST" || m == "PUT" || m == "DELETE"

/-- The circuit-breaker gate at the top of `request` (lines 52-59):
`true` means the call may proceed to the network (possibly after the
open-to-half-open transition); `false` means the "Circuit breaker is
open" error is thrown with no network attempt. -/
def breakerGate (svc : Svc) (now : Nat) : Bool × Svc :=
  if svc.cbState == "open" then
    if now - (svc.cbLastFailure.getD 0) < resetTimeout then
      (false, svc)
    else
      (true, { svc with cbState := "half-open" })
  else
    (true, svc)

/-- `handleRequestFailure(error)`: bump the consecutive-failure counter,
record the failure time, and open the circuit at the threshold. -/
def handleRequestFailure (svc : Svc) (now : Nat) : Svc :=
  let failures := svc.cbFailures + 1
  { svc with
    cbFailures := failures,
    cbLastFailure := some now,
    cbState := if failureThreshold <= failures then "open" else svc.cbState }

/-- The circuit-breaker success step of `request` (lines 64-68): a
successful half-open probe closes the circuit and zeroes the counter. -/
def breakerSuccess (svc : Svc) : Svc :=
  if svc.cbState == "half-open" then
    { svc with cbState := "closed", cbFailures := 0 }
  else svc

/-- What one `request` call produced: the payload or error, the service
state afterwards, whether the cache served the call, how many network
attempts were made and which backoff delays were slept. -/
structure ReqResult where
  result : Except String String
  svc : Svc
  cacheHit : Bool
  attempts : Nat
  delays : List Nat
  deriving Repr

/-- `request(endpoint, options)` run to completion at time `now`
(`Date.now()` is held fixed across the call).  `fetch` supplies the
outcome of each network attempt. -/
def request (svc : Svc) (now : Nat) (endpoint method params : String)
    (fetch : Nat → FetchOutcome) : ReqResult :=
  let cacheKey := getCacheKey endpoint params
  let hitAndCache :=
    if !isMutatingMethod method then getFromCache svc.cache cacheKey now
    else (none, svc.cache)
  match hitAndCache.1 with
  | some d =>
      { result := .ok d, svc := { svc with cache := hitAndCache.2 },
        cacheHit := true, attempts := 0, delays := [] }
  | none =>
      let svc1 : Svc := { svc with cache := hitAndCache.2 }
      let gate := breakerGate svc1 now
      if gate.1 then
        let svc2 := gate.2
        let ex := executeRequest fetch
        let svc3 := if ex.unauthorized then { svc2 with token := none } else svc2
        match ex.result with
        | .ok data =>
            let svc4 := breakerSuccess svc3
            let svc5 :=
              if data != "" && !isMutatingMethod method then
                { svc4 with cache := setCache svc4.cache cacheKey data now }
              else svc4
            { result := .ok data, svc := svc5, cacheHit := false,
              attempts := ex.attempts, delays := ex.delays }
        | .error msg =>
            { result := .error msg, svc := handleRequestFailure svc3 now,
              cacheHit := false, attempts := ex.attempts, delays := ex.delays }
      else
        { result := .error "Circuit breaker is open - service temporarily unavailable",
          svc := gate.2, cacheHit := false, attempts := 0, delays := [] }

/-- `createAlert(alertData)`: a POST to `/alerts`; does not touch the cache. -/
def createAlert (svc : Svc) (now : Nat) (fetch : Nat → FetchOutcome) : ReqResult :=
  request svc now "/alerts" "POST" jsonEmpty fetch

/-- `addCamera(cameraData)`: `clearCache()` then a POST to `/cameras`. -/
def addCamera (svc : Svc) (now : Nat) (fetch : Nat → FetchOutcome) : ReqResult :=
  request (clearCache svc) now "/cameras" "POST" jsonEmpty fetch

/-- `updateCamera(cameraId, updates)`: `clearCache()` then a PUT. -/
def updateCamera (svc : Svc) (now : Nat) (cameraId : String)
    (fetch : Nat → FetchOutcome) : ReqResult :=
  request (clearCache svc) now ("/cameras/" ++ cameraId) "PUT" jsonEmpty fetch

/-- `deleteCamera(cameraId)`: `clearCache()` then a DELETE. -/
def deleteCamera (svc : Svc) (now : Nat) (cameraId : String)
    (fetch : Nat → FetchOutcome) : ReqResult :=
  request (clearCache svc) now ("/cameras/" ++ cameraId) "DELETE" jsonEmpty fetch

/-- `getCameras()`: a read-shaped request (no `method` in the options). -/
def getCameras (svc : Svc) (now : Nat) (fetch : Nat → FetchOutcome) : ReqResult :=
  request svc now "/cameras" "" jsonEmpty fetch

/-! ## Production camera service (productionCameraService.js)

State of the singleton `ProductionCameraService`: the four maps plus a log
of `notifyStatusChange` events.  Media tracks are embedded with an
explicit `stopped` flag (`track.stop()` / the track having ended both set
it); `getUserMedia` is an oracle from constraints to a stream or a thrown
error message.
-/

/-- A `MediaStreamTrack`: its `kind`, whether it is stopped/ended, and the
settings `getSettings()` reports. -/
structure StreamSettings where
  width : Option Nat
  height : Option Nat
  frameRate : Option Nat
  deriving Repr, DecidableEq

/-- A media track. -/
structure Track where
  kind : String
  stopped : Bool
  settings : StreamSettings
  deriving Repr, DecidableEq

/-- A `MediaStream` as its track list. -/
structure MediaStream where
  tracks : List Track
  deriving Repr, DecidableEq

/-- `track.stop()` (also the state of a track after its `ended` event). -/
def stopTrack (t : Track) : Track :=
  { t with stopped := true }

/-- `stream.getTracks().forEach(track => track.stop())`. -/
def stopStream (s : MediaStream) : MediaStream :=
  { tracks := s.tracks.map stopTrack }

/-- A capability range; the source only reads `.max`. -/
structure CapRange where
  max : Option Nat
  deriving Repr, DecidableEq

/-- The capability envelope `track.getCapabilities()` merged with
`currentSettings` (as `getDeviceCapabilities` stores it).  `facingMode`
is `none` when the property is absent (JS `undefined`). -/
structure Capabilities where
  width : Option CapRange
  height : Option CapRange
  frameRate : Option CapRange
  facingMode : Option (List String)
  torch : Bool
  zoom : Bool
  focusMode : Bool
  whiteBalanceMode : Bool
  currentSettings : Option StreamSettings
  deriving Repr, DecidableEq

/-- The `x7b x7d` capabilities returned when probing a device fails. -/
def emptyCapabilities : Capabilities :=
  { width := none, height := none, frameRate := none, facingMode := none,
    torch := false, zoom := false, focusMode := false,
    whiteBalanceMode := false, currentSettings := none }

/-- `extractResolutions(capabilities)`: filter the standard ladder by the
device's maxima, with the `['1920x1080']` fallback. -/
def extractResolutions (capabilities : Capabilities) : List String :=
  let resolutions :=
    match capabilities.width, capabilities.height with
    | some w, some h =>
        let maxWidth := jsOr w.max 1920
        let maxHeight := jsOr h.max 1080
        let standardResolutions : List (Nat × Nat) :=
          [(3840, 2160), (2560, 1440), (1920, 1080), (1280, 720), (854, 480), (640, 480)]
        (standardResolutions.filter
            (fun r => r.1 <= maxWidth && r.2 <= maxHeight)).map
          (fun r => toString r.1 ++ "x" ++ toString r.2)
    | _, _ => []
  if 0 < resolutions.length then resolutions else ["1920x1080"]

/-- `extractFrameRates(capabilities)`. -/
def extractFrameRates (capabilities : Capabilities) : List Nat :=
  match capabilities.frameRate with
  | some r =>
      let maxFps := jsOr r.max 30
      (if 60 <= maxFps then [60] else []) ++
      (if 30 <= maxFps then [30] else []) ++
      (if 24 <= maxFps then [24] else []) ++ [15]
  | none => [30, 24, 15]

/-- `extractFeatures(capabilities)`. -/
def extractFeatures (capabilities : Capabilities) : String :=
  let maxW := match capabilities.width with | some r => r.max.getD 0 | none => 0
  let maxF := match capabilities.frameRate with | some r => r.max.getD 0 | none => 0
  let facing := capabilities.facingMode.getD []
  let features :=
    (if 1920 <= maxW then ["HD"] else []) ++
    (if 3840 <= maxW then ["4K"] else []) ++
    (if 60 <= maxF then ["60fps"] else []) ++
    (if facing.contains "environment" then ["Rear Camera"] else []) ++
    (if facing.contains "user" then ["Front Camera"] else []) ++
    (if capabilities.torch then ["Flash"] else []) ++
    (if capabilities.zoom then ["Zoom"] else []) ++
    (if capabilities.focusMode then ["Auto Focus"] else []) ++
    (if capabilities.whiteBalanceMode then ["White Balance"] else [])
  if 0 < features.length then String.intercalate ", " features else "Basic Video"

/-- One entry of `enumerateDevices()`. -/
structure DeviceInfo where
  deviceId : String
  kind : String
  label : String
  deriving Repr, DecidableEq

/-- `detectConnectionType(device)`. -/
def detectConnectionType (device : DeviceInfo) : String :=
  let label := device.label.toLower
  if strIncludes label "usb" then "USB"
  else if strIncludes label "built-in" || strIncludes label "integrated" then "Built-in"
  else if strIncludes label "wireless" || strIncludes label "wifi" then "WiFi"
  else if strIncludes label "bluetooth" then "Bluetooth"
  else "Unknown"

/-- The descriptor stored in `connectedCameras` (source field `type` is
embedded as `cameraType`). -/
structure CameraInfo where
  id : String
  name : String
  cameraType : String
  status : String
  deviceId : String
  capabilities : Capabilities
  resolutions : List String
  frameRates : List Nat
  features : String
  connection : String
  lastSeen : Nat
  lastConnected : Option Nat
  lastDisconnected : Option Nat
  currentSettings : Option StreamSettings
  deriving Repr, DecidableEq

/-- `constraints.video` as built by `buildConstraints` (`audio: false` is
constant in the source and omitted). -/
structure VideoConstraints where
  deviceId : String
  idealWidth : Option Nat
  idealHeight : Option Nat
  idealFrameRate : Option Nat
  idealFacingMode : Option String
  deriving Repr, DecidableEq

/-- The Connection object built by `connectToCamera` (the float string
`aspectRatio` inside `settings` is not embedded; no claim reads it). -/
structure Connection where
  cameraId : String
  stream : MediaStream
  videoTrack : Track
  settings : StreamSettings
  constraints : VideoConstraints
  connectedAt : Nat
  isActive : Bool
  deriving Repr, DecidableEq

/-- The service state: the four maps plus the `notifyStatusChange` log. -/
structure CamState where
  connectedCameras : List (String × CameraInfo)
  activeStreams : List (String × Connection)
  deviceCapabilities : List (String × Capabilities)
  connectionStatus : List (String × String)
  notifications : List (String × String)
  deriving Repr, DecidableEq

/-- Caller options of `connectToCamera`. -/
structure ConnectOptions where
  resolution : Option String
  frameRate : Option Nat
  facingMode : Option String
  deriving Repr, DecidableEq

/-- `options.resolution.split('x').map(Number)` with the
`if (width && height)` truthiness check. -/
def parseResolution (s : String) : Option (Nat × Nat) :=
  match (s.splitOn "x").map String.toNat? with
  | [some w, some h] => if w != 0 && h != 0 then some (w, h) else none
  | _ => none

/-- `buildConstraints(cameraId, options, capabilities)`. -/
def buildConstraints (cameraId : String) (options : ConnectOptions)
    (capabilities : Capabilities) : VideoConstraints :=
  let base : VideoConstraints :=
    { deviceId := cameraId, idealWidth := none, idealHeight := none,
      idealFrameRate := none, idealFacingMode := none }
  let withRes :=
    match options.resolution with
    | some r =>
        match parseResolution r with
        | some (w, h) => { base with idealWidth := some w, idealHeight := some h }
        | none => base
    | none =>
        match capabilities.width, capabilities.height with
        | some w, some h =>
            { base with idealWidth := some (jsOr w.max 1920),
                        idealHeight := some (jsOr h.max 1080) }
        | _, _ => base
  let withFps :=
    match options.frameRate with
    | some f => { withRes with idealFrameRate := some f }
    | none =>
        match capabilities.frameRate with
        | some r => { withRes with idealFrameRate := some (jsOr r.max 30) }
        | none => withRes
  match options.facingMode, capabilities.facingMode with
  | some fm, some _ => { withFps with idealFacingMode := some fm }
  | _, _ => withFps

/-- What a `connectToCamera` call produced: the connection or the thrown
error, the state afterwards, and how many `getUserMedia` calls were made. -/
structure ConnectOut where
  result : Except String Connection
  st : CamState
  mediaCalls : Nat
  deriving Repr

/-- The catch-block of `connectToCamera`: mark the status `failed`,
notify, and rethrow. -/
def connectFailure (st : CamState) (cameraId msg : String) (calls : Nat) : ConnectOut :=
  { result := .error msg,
    st := { st with
      connectionStatus := jmSet st.connectionStatus cameraId "failed",
      notifications := st.notifications ++ [(cameraId, "failed")] },
    mediaCalls := calls }

/-- `connectToCamera(cameraId, options)` with `getUserMedia` as the
`media` oracle and `Date.now()` fixed at `now`. -/
def connectToCamera (st : CamState) (cameraId : String) (options : ConnectOptions)
    (media : VideoConstraints → Except String MediaStream) (now : Nat) : ConnectOut :=
  if !jmHas st.connectedCameras cameraId then
    connectFailure st cameraId ("Camera " ++ cameraId ++ " not found") 0
  else
    match jmGet st.activeStreams cameraId with
    | some connection => { result := .ok connection, st := st, mediaCalls := 0 }
    | none =>
        let st1 : CamState :=
          { st with
            connectionStatus := jmSet st.connectionStatus cameraId "connecting",
            notifications := st.notifications ++ [(cameraId, "connecting")] }
        let capabilities := (jmGet st1.deviceCapabilities cameraId).getD emptyCapabilities
        let constraints := buildConstraints cameraId options capabilities
        match media constraints with
        | .error e => connectFailure st1 cameraId e 1
        | .ok stream =>
            if stream.tracks.length == 0 then
              connectFailure st1 cameraId "Failed to get valid media stream" 1
            else
              match stream.tracks.find? (fun t => t.kind == "video") with
              | none => connectFailure st1 cameraId "No video track in stream" 1
              | some videoTrack =>
                  let actualSettings := videoTrack.settings
                  let connection : Connection :=
                    { cameraId := cameraId, stream := stream, videoTrack := videoTrack,
                      settings := actualSettings, constraints := constraints,
                      connectedAt := now, isActive := true }
                  let st2 : CamState :=
                    { st1 with
                      activeStreams := jmSet st1.activeStreams cameraId connection,
                      connectionStatus := jmSet st1.connectionStatus cameraId "connected" }
                  let st3 : CamState :=
                    match jmGet st2.connectedCameras cameraId with
                    | some camera =>
                        let camera2 : CameraInfo :=
                          { camera with
                            status := "online", lastConnected := some now,
                            currentSettings := some actualSettings }
                        { st2 with connectedCameras := jmSet st2.connectedCameras cameraId camera2 }
                    | none => st2
                  { result := .ok connection,
                    st := { st3 with notifications := st3.notifications ++ [(cameraId, "connected")] },
                    mediaCalls := 1 }

/-- `disconnectCamera(cameraId)`.  The second component is the final state
of the (now unmapped) Connection object, for stating track-stoppage;
`none` on the idempotent not-connected path. -/
def disconnectCamera (st : CamState) (cameraId : String) (now : Nat) :
    CamState × Option Connection :=
  match jmGet st.activeStreams cameraId with
  | none => (st, none)
  | some connection =>
      let stopped : Connection :=
        { connection with
          stream := stopStream connection.stream,
          videoTrack := stopTrack connection.videoTrack }
      let st1 : CamState :=
        { st with
          activeStreams := jmDelete st.activeStreams cameraId,
          connectionStatus := jmSet st.connectionStatus cameraId "disconnected" }
      let st2 : CamState :=
        match jmGet st1.connectedCameras cameraId with
        | some camera =>
            let camera2 : CameraInfo :=
              { camera with status := "available", lastDisconnected := some now }
            { st1 with connectedCameras := jmSet st1.connectedCameras cameraId camera2 }
        | none => st1
      ({ st2 with notifications := st2.notifications ++ [(cameraId, "disconnected")] },
       some stopped)

/-- `handleStreamEnd(cameraId)` (the `ended`-event listener body). -/
def handleStreamEnd (st : CamState) (cameraId : String) (now : Nat) : CamState :=
  let st1 : CamState :=
    { st with
      activeStreams := jmDelete st.activeStreams cameraId,
      connectionStatus := jmSet st.connectionStatus cameraId "disconnected" }
  let st2 : CamState :=
    match jmGet st1.connectedCameras cameraId with
    | some camera =>
        let camera2 : CameraInfo :=
          { camera with status := "available", lastDisconnected := some now }
        { st1 with connectedCameras := jmSet st1.connectedCameras cameraId camera2 }
    | none => st1
  { st2 with notifications := st2.notifications ++ [(cameraId, "stream_ended")] }

/-- Environment semantics of the track `ended` event that triggers
`handleStreamEnd`: the device loss ends every track of the device's
stream before the listener runs (the service itself stops nothing on
this path). -/
def markStreamEnded (st : CamState) (cameraId : String) : CamState :=
  match jmGet st.activeStreams cameraId with
  | none => st
  | some connection =>
      let ended : Connection :=
        { connection with
          stream := stopStream connection.stream,
          videoTrack := stopTrack connection.videoTrack }
      { st with activeStreams := jmSet st.activeStreams cameraId ended }

/-- The full track-ended teardown: the event ends the tracks, then the
registered listener runs `handleStreamEnd`.  The second component is the
final state of the Connection object, as in `disconnectCamera`. -/
def trackEndedTeardown (st : CamState) (cameraId : String) (now : Nat) :
    CamState × Option Connection :=
  let marked := markStreamEnded st cameraId
  (handleStreamEnd marked cameraId now, jmGet marked.activeStreams cameraId)

/-- `processDevice(device)`: build the descriptor and install it in the
three per-device maps.  `caps` is the `getDeviceCapabilities` oracle. -/
def processDevice (caps : String → Capabilities) (now : Nat)
    (st : CamState) (device : DeviceInfo) : CamState :=
  let deviceId := device.deviceId
  let label :=
    if device.label == "" then "Camera " ++ toString (st.connectedCameras.length + 1)
    else device.label
  let capabilities := caps deviceId
  let cameraInfo : CameraInfo :=
    { id := deviceId, name := label, cameraType := "webcam",
      status := "available", deviceId := deviceId,
      capabilities := capabilities,
      resolutions := extractResolutions capabilities,
      frameRates := extractFrameRates capabilities,
      features := extractFeatures capabilities,
      connection := detectConnectionType device,
      lastSeen := now, lastConnected := none, lastDisconnected := none,
      currentSettings := none }
  { st with
    connectedCameras := jmSet st.connectedCameras deviceId cameraInfo,
    deviceCapabilities := jmSet st.deviceCapabilities deviceId capabilities,
    connectionStatus := jmSet st.connectionStatus deviceId "disconnected" }

/-- `discoverDevices()`: filter video inputs, clear the camera and
capability maps, and process every device.  `devices` is the
`enumerateDevices()` oracle. -/
def discoverDevices (st : CamState) (devices : List DeviceInfo)
    (caps : String → Capabilities) (now : Nat) : CamState :=
  let videoDevices := devices.filter (fun d => d.kind == "videoinput")
  let st0 : CamState := { st with connectedCameras := [], deviceCapabilities := [] }
  videoDevices.foldl (processDevice caps now) st0

/-- `getCameraStatus(cameraId)`. -/
def getCameraStatus (st : CamState) (cameraId : String) : String :=
  (jmGet st.connectionStatus cameraId).getD "unknown"

/-- `isConnected(cameraId)`. -/
def isConnected (st : CamState) (cameraId : String) : Bool :=
  jmHas st.activeStreams cameraId

/-! ## Real-time detection service (realTimeDetection.js)

Only `handleDetectionResults` and its cooldown map are claim-relevant.
`SupabaseService.createAlert` and `createSystemLog` are oracles returning
success or failure; the float `confidence` and the numeric `person_count`
are pass-through fields no claim reads and are not embedded. -/

/-- `cooldownPeriod` (ms between same type/location alerts). -/
def cooldownPeriod : Nat := 5000

/-- One candidate alert coming back from the inference collaborator. -/
structure DetAlert where
  eventType : String
  location : Option String
  description : String
  severity : Option String
  deriving Repr, DecidableEq

/-- The cooldown key: `alert.type + '_' + (alert.location || 'unknown')`. -/
def alertKey (a : DetAlert) : String :=
  a.eventType ++ "_" ++ jsOrStr a.location "unknown"

/-- The Alert row built for `SupabaseService.createAlert`. -/
structure AlertRow where
  alertId : String
  eventType : String
  timestamp : Nat
  frameNumber : Nat
  description : String
  location : String
  severity : String
  deriving Repr, DecidableEq

/-- The `alertData` object literal in `handleDetectionResults`. -/
def mkAlertRow (a : DetAlert) (now frameCount : Nat) : AlertRow :=
  { alertId := "live_" ++ toString now ++ "_" ++ toString frameCount,
    eventType := a.eventType,
    timestamp := now,
    frameNumber := frameCount,
    description := a.description,
    location := jsOrStr a.location "Live Camera",
    severity := jsOrStr a.severity "medium" }

/-- What one `handleDetectionResults` invocation produced: the cooldown
map afterwards, the rows actually persisted (in order), and whether the
surrounding try/catch caught a thrown persistence/log error (which ends
the loop). -/
structure DetResult where
  cooldowns : List (String × Nat)
  persisted : List AlertRow
  aborted : Bool
  deriving Repr, DecidableEq

/-- `handleDetectionResults(results)` over the batch `results.alerts`,
run at time `now` with frame counter `frameCount`.  `persistOk row`
is whether `SupabaseService.createAlert(row)` succeeds and `logOk row`
whether the subsequent `createSystemLog` call succeeds; a `false` from
either throws into the catch that wraps the whole `for` loop, ending the
cycle's processing. -/
def handleDetectionResults (cooldowns : List (String × Nat))
    (persistOk logOk : AlertRow → Bool) (now frameCount : Nat) :
    List DetAlert → DetResult
  | [] => { cooldowns := cooldowns, persisted := [], aborted := false }
  | alert :: rest =>
      let key := alertKey alert
      let lastAlertTime := (jmGet cooldowns key).getD 0
      if now - lastAlertTime < cooldownPeriod then
        handleDetectionResults cooldowns persistOk logOk now frameCount rest
      else
        let row := mkAlertRow alert now frameCount
        if persistOk row then
          let cooldowns2 := jmSet cooldowns key now
          if logOk row then
            let r := handleDetectionResults cooldowns2 persistOk logOk now frameCount rest
            { cooldowns := r.cooldowns, persisted := row :: r.persisted,
              aborted := r.aborted }
          else
            { cooldowns := cooldowns2, persisted := [row], aborted := true }
        else
          { cooldowns := cooldowns, persisted := [], aborted := true }

/-! ## Concrete inputs used by witnesses and counterexamples -/

/-- A service whose breaker just opened: 5 failures, the last at t=100000. -/
def svcOpen : Svc :=
  { token := none, cbState := "open", cbFailures := 5,
    cbLastFailure := some 100000, cache := [] }

/-- A closed-breaker service holding one fresh cached read. -/
def svcCached : Svc :=
  { token := some "tok", cbState := "closed", cbFailures := 0,
    cbLastFailure := none,
    cache := [(getCacheKey "/cameras" jsonEmpty, { data := "cams", expires := 300000 })] }

/-- A fetch oracle that always yields HTTP 503. -/
def fetch503 : Nat → FetchOutcome :=
  fun _ => .resp 503 "Service Unavailable" ""

/-- A fetch oracle that always yields HTTP 501 (a 5xx the code never retries). -/
def fetch501 : Nat → FetchOutcome :=
  fun _ => .resp 501 "Not Implemented" ""

/-- A fetch oracle that always yields HTTP 401. -/
def fetch401 : Nat → FetchOutcome :=
  fun _ => .resp 401 "Unauthorized" ""

/-- A fetch oracle that always succeeds with body `"payload"`. -/
def fetchOkPayload : Nat → FetchOutcome :=
  fun _ => .resp 200 "OK" "payload"

/-- Two 503 responses, then success: the retry-then-succeed scenario. -/
def fetch503x2 : Nat → FetchOutcome :=
  fun attempt => if attempt < 2 then .resp 503 "Service Unavailable" "" else .resp 200 "OK" "payload"

/-- The capability envelope of a 1920x1080 device. -/
def capsFHD : Capabilities :=
  { emptyCapabilities with
    width := some { max := some 1920 }, height := some { max := some 1080 } }

/-- A concrete video track (for witness states). -/
def trackW : Track :=
  { kind := "video", stopped := false,
    settings := { width := some 1280, height := some 720, frameRate := some 30 } }

/-- A concrete connection for device `cam1`. -/
def connW : Connection :=
  { cameraId := "cam1", stream := { tracks := [trackW] }, videoTrack := trackW,
    settings := trackW.settings,
    constraints := { deviceId := "cam1", idealWidth := some 1920, idealHeight := some 1080,
                     idealFrameRate := some 30, idealFacingMode := none },
    connectedAt := 50, isActive := true }

/-- A concrete descriptor for device `cam1`. -/
def cameraInfoW : CameraInfo :=
  { id := "cam1", name := "Webcam", cameraType := "webcam", status := "online",
    deviceId := "cam1", capabilities := capsFHD,
    resolutions := extractResolutions capsFHD, frameRates := [30, 24, 15],
    features := "HD", connection := "USB", lastSeen := 10,
    lastConnected := some 50, lastDisconnected := none,
    currentSettings := some trackW.settings }

/-- A camera-service state with `cam1` discovered and connected. -/
def camStateW : CamState :=
  { connectedCameras := [("cam1", cameraInfoW)],
    activeStreams := [("cam1", connW)],
    deviceCapabilities := [("cam1", capsFHD)],
    connectionStatus := [("cam1", "connected")],
    notifications := [] }

/-- An `enumerateDevices` result with one video input and one microphone. -/
def devicesW : List DeviceInfo :=
  [{ deviceId := "cam1", kind := "videoinput", label := "USB Webcam" },
   { deviceId := "mic1", kind := "audioinput", label := "Mic" }]

/-- A fight alert candidate at the default location. -/
def alertFight : DetAlert :=
  { eventType := "fight", location := none, description := "fight detected",
    severity := some "high" }

/-- A fall alert candidate at the default location. -/
def alertFall : DetAlert :=
  { eventType := "fall", location := none, description := "fall detected",
    severity := none }

/-- A persistence oracle that only accepts fall rows (fails on the fight row). -/
def persistFallOnly : AlertRow → Bool :=
  fun row => row.eventType == "fall"

/-- The always-succeeding persistence/log oracle. -/
def persistAlways : AlertRow → Bool :=
  fun _ => true

/-- An open-breaker service that still holds one fresh cached read. -/
def svcOpenCached : Svc :=
  { token := none, cbState := "open", cbFailures := 5,
    cbLastFailure := some 100000,
    cache := [(getCacheKey "/cameras" jsonEmpty, { data := "cams", expires := 300000 })] }

/-! ## Helper lemmas about the JS `Map` embedding -/

theorem jmGet_jmSet (m : List (String × β)) (k : String) (v : β) (k' : String) :
    jmGet (jmSet m k v) k' = if k' = k then some v else jmGet m k' := by
  induction m with
  | nil =>
      by_cases h : k' = k
      · subst h; simp [jmSet, jmGet]
      · have hb : (k == k') = false := beq_eq_false_iff_ne.mpr (Ne.symm h)
        simp [jmSet, jmGet, hb, h]
  | cons p rest ih =>
      obtain ⟨k0, v0⟩ := p
      by_cases h0 : k0 = k
      · subst h0
        by_cases h : k' = k0
        · subst h
          simp [jmSet, jmGet]
        · have hb : (k0 == k') = false := beq_eq_false_iff_ne.mpr (Ne.symm h)
          simp [jmSet, jmGet, hb, h]
      · have hb0 : (k0 == k) = false := beq_eq_false_iff_ne.mpr h0
        by_cases h : k' = k0
        · subst h
          simp [jmSet, jmGet, hb0, h0]
        · have hb1 : (k0 == k') = false := beq_eq_false_iff_ne.mpr (Ne.symm h)
          simp [jmSet, jmGet, hb0, hb1, ih]

theorem jmGet_jmSet_self (m : List (String × β)) (k : String) (v : β) :
    jmGet (jmSet m k v) k = some v := by
  simp [jmGet_jmSet]

theorem jmDelete_jmSet (m : List (String × β)) (k : String) (v : β) :
    jmDelete (jmSet m k v) k = jmDelete m k := by
  induction m with
  | nil => simp [jmSet, jmDelete]
  | cons p rest ih =>
      obtain ⟨k0, v0⟩ := p
      by_cases h0 : k0 = k
      · subst h0
        simp [jmSet, jmDelete]
      · have hb : (k0 == k) = false := beq_eq_false_iff_ne.mpr h0
        simp [jmSet, jmDelete, hb, ih]

theorem mem_keys_jmSet (m : List (String × β)) (k : String) (v : β) (a : String)
    (ha : a ∈ (jmSet m k v).map Prod.fst) : a = k ∨ a ∈ m.map Prod.fst := by
  induction m with
  | nil => simpa [jmSet] using ha
  | cons p rest ih =>
      obtain ⟨k0, v0⟩ := p
      by_cases h0 : k0 = k
      · subst h0
        simp only [jmSet, beq_self_eq_true, if_true, List.map_cons, List.mem_cons] at ha
        rcases ha with h | h
        · exact Or.inl h
        · exact Or.inr (by simp [h])
      · have hb : (k0 == k) = false := beq_eq_false_iff_ne.mpr h0
        simp only [jmSet, hb, Bool.false_eq_true, if_false, List.map_cons, List.mem_cons] at ha
        rcases ha with h | h
        · exact Or.inr (by simp [h])
        · rcases ih h with h' | h'
          · exact Or.inl h'
          · exact Or.inr (by simp [h'])

theorem nodupKeys_jmSet (m : List (String × β)) (k : String) (v : β)
    (h : nodupKeys m) : nodupKeys (jmSet m k v) := by
  induction m with
  | nil => simp [jmSet, nodupKeys]
  | cons p rest ih =>
      obtain ⟨k0, v0⟩ := p
      rw [nodupKeys, List.map_cons, List.nodup_cons] at h
      by_cases h0 : k0 = k
      · subst h0
        rw [nodupKeys]
        simp only [jmSet, beq_self_eq_true, if_true, List.map_cons, List.nodup_cons]
        exact ⟨h.1, h.2⟩
      · have hb : (k0 == k) = false := beq_eq_false_iff_ne.mpr h0
        have tail := ih h.2
        have notmem : k0 ∉ (jmSet rest k v).map Prod.fst := by
          intro hmem
          rcases mem_keys_jmSet rest k v k0 hmem with h' | h'
          · exact h0 h'
          · exact h.1 h'
        rw [nodupKeys] at tail
        rw [nodupKeys]
        simp only [jmSet, hb, Bool.false_eq_true, if_false, List.map_cons, List.nodup_cons]
        exact ⟨notmem, tail⟩

/-! ## Helper lemmas about the backend client -/

theorem shouldRetry_netFail : shouldRetry "Failed to fetch" = true := by decide

theorem shouldRetry_503 : shouldRetry "HTTP 503: Service Unavailable" = true := by decide

theorem shouldRetry_auth : shouldRetry "Authentication required" = false := by decide

theorem executeRequest_attempts_pos (fetch : Nat → FetchOutcome) :
    1 <= (executeRequest fetch).attempts := by
  unfold executeRequest executeRequestAux
  cases attemptOutcome (fetch 0) with
  | success d => simp
  | failure msg unauth =>
      by_cases h : (0 < maxRetries && shouldRetry msg) = true <;> simp [h]

/-! ## Claim C7: resolution ladder -/

/-- Claim C7 counterexample: a device reporting max width 1920 and max
height 1080 does NOT yield exactly ["1920x1080","1280x720","640x480"]:
the source ladder also retains 854x480, so `extractResolutions` returns a
four-element list. -/
theorem C7_counterexample :
    extractResolutions capsFHD ≠ ["1920x1080", "1280x720", "640x480"] ∧
    extractResolutions capsFHD = ["1920x1080", "1280x720", "854x480", "640x480"] := by
  constructor
  · decide
  · rfl

/-- Claim C7 (amended): for every capability envelope reporting max width
1920 and max height 1080, the derived offered-resolution list is exactly
["1920x1080","1280x720","854x480","640x480"], containing neither
3840x2160 nor 2560x1440. -/
theorem C7_resolution_ladder (caps : Capabilities)
    (hw : caps.width = some { max := some 1920 })
    (hh : caps.height = some { max := some 1080 }) :
    extractResolutions caps = ["1920x1080", "1280x720", "854x480", "640x480"] ∧
    "3840x2160" ∉ extractResolutions caps ∧
    "2560x1440" ∉ extractResolutions caps := by
  have hkey : extractResolutions caps = ["1920x1080", "1280x720", "854x480", "640x480"] := by
    unfold extractResolutions
    rw [hw, hh]
    rfl
  refine ⟨hkey, ?_, ?_⟩ <;> rw [hkey] <;> decide

/-- Witness for C7_resolution_ladder at the concrete envelope `capsFHD`. -/
theorem C7_resolution_ladder_witness :
    extractResolutions capsFHD = ["1920x1080", "1280x720", "854x480", "640x480"] ∧
    "3840x2160" ∉ extractResolutions capsFHD ∧
    "2560x1440" ∉ extractResolutions capsFHD :=
  C7_resolution_ladder capsFHD rfl rfl

/-! ## Claim C8: cooldown suppression -/

/-- Claim C8: two candidate alerts with the same cooldown key processed
2 seconds apart (inside the 5-second window), with a working persistence
layer, yield exactly one persisted Alert: the first cycle persists its
row and stamps the cooldown key with its time, and the second cycle
persists nothing. -/
theorem C8_cooldown_suppression (cooldowns : List (String × Nat)) (a1 a2 : DetAlert)
    (t fc1 fc2 : Nat)
    (hkey : alertKey a2 = alertKey a1)
    (hready : ¬ (t - (jmGet cooldowns (alertKey a1)).getD 0 < cooldownPeriod)) :
    (handleDetectionResults cooldowns persistAlways persistAlways t fc1 [a1]).persisted =
      [mkAlertRow a1 t fc1] ∧
    jmGet (handleDetectionResults cooldowns persistAlways persistAlways t fc1 [a1]).cooldowns
      (alertKey a1) = some t ∧
    (handleDetectionResults
      (handleDetectionResults cooldowns persistAlways persistAlways t fc1 [a1]).cooldowns
      persistAlways persistAlways (t + 2000) fc2 [a2]).persisted = [] := by
  have h1 : handleDetectionResults cooldowns persistAlways persistAlways t fc1 [a1] =
      { cooldowns := jmSet cooldowns (alertKey a1) t,
        persisted := [mkAlertRow a1 t fc1], aborted := false } := by
    unfold handleDetectionResults
    rw [if_neg hready]
    simp [persistAlways, handleDetectionResults]
  have hget : jmGet (jmSet cooldowns (alertKey a1) t) (alertKey a1) = some t :=
    jmGet_jmSet_self cooldowns (alertKey a1) t
  have h2 : (handleDetectionResults (jmSet cooldowns (alertKey a1) t)
      persistAlways persistAlways (t + 2000) fc2 [a2]).persisted = [] := by
    have hcool : t + 2000 -
        (jmGet (jmSet cooldowns (alertKey a1) t) (alertKey a2)).getD 0 < cooldownPeriod := by
      rw [hkey, hget]
      simp [cooldownPeriod]
    unfold handleDetectionResults
    rw [if_pos hcool]
    simp [handleDetectionResults]
  exact ⟨by rw [h1], by rw [h1]; exact hget, by rw [h1]; exact h2⟩

/-- Witness for C8_cooldown_suppression: two fight alerts at t=10000 and
t=12000 over an empty cooldown map. -/
theorem C8_cooldown_suppression_witness :
    (handleDetectionResults [] persistAlways persistAlways 10000 1 [alertFight]).persisted =
      [mkAlertRow alertFight 10000 1] ∧
    jmGet (handleDetectionResults [] persistAlways persistAlways 10000 1 [alertFight]).cooldowns
      (alertKey alertFight) = some 10000 ∧
    (handleDetectionResults
      (handleDetectionResults [] persistAlways persistAlways 10000 1 [alertFight]).cooldowns
      persistAlways persistAlways (10000 + 2000) 2 [alertFight]).persisted = [] :=
  C8_cooldown_suppression [] alertFight alertFight 10000 1 2 rfl (by decide)

/-! ## Claim C9: per-alert isolation of persistence failures -/

/-- Claim C9 counterexample: in the batch [alertFight, alertFall] over an
empty cooldown map at t=10000, the fall candidate passes the cooldown
check and its persistence call would succeed, yet nothing at all is
persisted: the fight row's persistence failure throws into the catch
that wraps the whole loop and aborts the cycle.  This refutes the claim
that every later candidate in the batch is still cooldown-checked and,
if accepted, persisted. -/
theorem C9_counterexample :
    (handleDetectionResults [] persistFallOnly persistAlways 10000 1
        [alertFight, alertFall]).persisted = [] ∧
    (handleDetectionResults [] persistFallOnly persistAlways 10000 1
        [alertFight, alertFall]).aborted = true ∧
    persistFallOnly (mkAlertRow alertFall 10000 1) = true ∧
    persistFallOnly (mkAlertRow alertFight 10000 1) = false ∧
    (handleDetectionResults [] persistFallOnly persistAlways 10000 1 [alertFall]).persisted =
      [mkAlertRow alertFall 10000 1] := by
  refine ⟨rfl, rfl, rfl, rfl, rfl⟩

/-- Claim C9 (amended): a persistence failure while storing one accepted
alert aborts the remaining candidates of that cycle: the thrown error is
caught by the handler wrapping the whole loop, so no later candidate of
the batch is cooldown-checked or persisted, and the failing alert's own
cooldown key is left un-stamped. -/
theorem C9_persistence_failure_aborts (cooldowns : List (String × Nat))
    (persistOk logOk : AlertRow → Bool) (now fc : Nat) (a : DetAlert)
    (rest : List DetAlert)
    (hready : ¬ (now - (jmGet cooldowns (alertKey a)).getD 0 < cooldownPeriod))
    (hfail : persistOk (mkAlertRow a now fc) = false) :
    handleDetectionResults cooldowns persistOk logOk now fc (a :: rest) =
      { cooldowns := cooldowns, persisted := [], aborted := true } := by
  unfold handleDetectionResults
  rw [if_neg hready]
  simp [hfail]

/-- Witness for C9_persistence_failure_aborts: the fight alert with the
fall-only persistence oracle. -/
theorem C9_persistence_failure_aborts_witness :
    handleDetectionResults [] persistFallOnly persistAlways 10000 1
        [alertFight, alertFall] =
      { cooldowns := [], persisted := [], aborted := true } :=
  C9_persistence_failure_aborts [] persistFallOnly persistAlways 10000 1
    alertFight [alertFall] (by decide) rfl

/-! ## Claim C1: circuit breaker -/

/-- The breaker gate only inspects the circuit-breaker fields, never the
cache, so it evaluates the same on a service whose cache was rewritten
by the cache-read step. -/
theorem breakerGate_blocked (svc : Svc) (now : Nat)
    (c : List (String × CacheEntry))
    (hopen : svc.cbState = "open")
    (htime : now - svc.cbLastFailure.getD 0 < resetTimeout) :
    breakerGate { svc with cache := c } now = (false, { svc with cache := c }) := by
  unfold breakerGate
  simp [hopen, htime]

/-- Claim C1 counterexample: (a) after 5 consecutive failures the breaker
is open (svcOpen is the post-failure state); (b) once the reset timeout
has elapsed the gate admits a first probe and flips to half-open, but a
second pending call checked against the half-open breaker is admitted as
well - not "exactly one probe"; (c) while open and inside the timeout, a
call served from the cache succeeds with zero network attempts instead
of failing with the service-unavailable error. -/
theorem C1_counterexample :
    handleRequestFailure (handleRequestFailure (handleRequestFailure (handleRequestFailure
        (handleRequestFailure initSvc 100000) 100000) 100000) 100000) 100000 = svcOpen ∧
    (breakerGate svcOpen 160000).1 = true ∧
    (breakerGate svcOpen 160000).2.cbState = "half-open" ∧
    (breakerGate (breakerGate svcOpen 160000).2 160000).1 = true ∧
    (request svcOpenCached 110000 "/cameras" "" jsonEmpty fetchOkPayload).result = .ok "cams" ∧
    (request svcOpenCached 110000 "/cameras" "" jsonEmpty fetchOkPayload).attempts = 0 := by
  exact ⟨rfl, rfl, rfl, rfl, rfl, rfl⟩

/-- Claim C1 (amended): after 5 consecutive request failures the breaker
is open; while open and before the reset timeout, any call not served
from the cache fails immediately with the service-unavailable error and
makes no network attempt; once the timeout has elapsed the gate admits
the call and transitions to half-open, but every further call checked
while the breaker is half-open is admitted as well (more than one
concurrent probe is possible); a successful call in the half-open state
closes the circuit and resets the failure counter to 0. -/
theorem C1_circuit_breaker :
    (∀ svc : Svc, ∀ t : Nat,
      (handleRequestFailure (handleRequestFailure (handleRequestFailure (handleRequestFailure
          (handleRequestFailure svc t) t) t) t) t).cbState = "open") ∧
    (∀ svc : Svc, ∀ now : Nat, ∀ endpoint method params : String,
      ∀ fetch : Nat → FetchOutcome,
      svc.cbState = "open" →
      now - svc.cbLastFailure.getD 0 < resetTimeout →
      (isMutatingMethod method = true ∨
        (getFromCache svc.cache (getCacheKey endpoint params) now).1 = none) →
      (request svc now endpoint method params fetch).result =
          .error "Circuit breaker is open - service temporarily unavailable" ∧
      (request svc now endpoint method params fetch).attempts = 0) ∧
    (∀ svc : Svc, ∀ now : Nat,
      svc.cbState = "open" →
      ¬ (now - svc.cbLastFailure.getD 0 < resetTimeout) →
      breakerGate svc now = (true, { svc with cbState := "half-open" })) ∧
    (∀ svc : Svc, ∀ now : Nat,
      svc.cbState = "half-open" → breakerGate svc now = (true, svc)) ∧
    (∀ svc : Svc,
      svc.cbState = "half-open" →
      (breakerSuccess svc).cbState = "closed" ∧ (breakerSuccess svc).cbFailures = 0) := by
  refine ⟨?_, ?_, ?_, ?_, ?_⟩
  · intro svc t
    have h5 : failureThreshold ≤ svc.cbFailures + 1 + 1 + 1 + 1 + 1 := by
      unfold failureThreshold
      omega
    simp [handleRequestFailure, h5]
  · intro svc now endpoint method params fetch hopen htime hmiss
    by_cases hm : isMutatingMethod method
    · unfold request
      rw [hm]
      simp only [Bool.not_true, Bool.false_eq_true, if_false]
      rw [breakerGate_blocked svc now svc.cache hopen htime]
      exact ⟨rfl, rfl⟩
    · have hnone : (getFromCache svc.cache (getCacheKey endpoint params) now).1 = none := by
        rcases hmiss with h | h
        · exact absurd h (by simp [hm])
        · exact h
      unfold request
      rw [eq_false_of_ne_true hm]
      simp only [Bool.not_false, if_true]
      rw [hnone]
      rw [breakerGate_blocked svc now
        (getFromCache svc.cache (getCacheKey endpoint params) now).2 hopen htime]
      exact ⟨rfl, rfl⟩
  · intro svc now hopen htime
    unfold breakerGate
    rw [hopen]
    simp [htime]
  · intro svc now hho
    unfold breakerGate
    rw [hho]
    simp
  · intro svc hho
    unfold breakerSuccess
    rw [hho]
    simp

/-- Witness for C1_circuit_breaker at concrete states: 5 failures on the
fresh service, the fail-fast POST on svcOpen at t=110000, the half-open
transition and second admitted probe at t=160000, and probe success. -/
theorem C1_circuit_breaker_witness :
    (handleRequestFailure (handleRequestFailure (handleRequestFailure (handleRequestFailure
        (handleRequestFailure initSvc 100000) 100000) 100000) 100000) 100000).cbState = "open" ∧
    (request svcOpen 110000 "/x" "POST" jsonEmpty fetch503).result =
        .error "Circuit breaker is open - service temporarily unavailable" ∧
    (request svcOpen 110000 "/x" "POST" jsonEmpty fetch503).attempts = 0 ∧
    breakerGate svcOpen 160000 = (true, { svcOpen with cbState := "half-open" }) ∧
    breakerGate { svcOpen with cbState := "half-open" } 160000 =
        (true, { svcOpen with cbState := "half-open" }) ∧
    (breakerSuccess { svcOpen with cbState := "half-open" }).cbState = "closed" ∧
    (breakerSuccess { svcOpen with cbState := "half-open" }).cbFailures = 0 := by
  refine ⟨C1_circuit_breaker.1 initSvc 100000, ?_, ?_, ?_, ?_, ?_, ?_⟩
  · exact (C1_circuit_breaker.2.1 svcOpen 110000 "/x" "POST" jsonEmpty fetch503
      rfl (by decide) (Or.inl rfl)).1
  · exact (C1_circuit_breaker.2.1 svcOpen 110000 "/x" "POST" jsonEmpty fetch503
      rfl (by decide) (Or.inl rfl)).2
  · exact C1_circuit_breaker.2.2.1 svcOpen 160000 rfl (by decide)
  · exact C1_circuit_breaker.2.2.2.1 { svcOpen with cbState := "half-open" } 160000 rfl
  · exact (C1_circuit_breaker.2.2.2.2 { svcOpen with cbState := "half-open" } rfl).1
  · exact (C1_circuit_breaker.2.2.2.2 { svcOpen with cbState := "half-open" } rfl).2

/-- On a closed breaker with a cache miss (or mutating method), `request`
reports exactly what `executeRequest` produced: same outcome, attempt
count and backoff delays, no cache hit, the token cleared exactly when
an attempt hit the 401 branch, and an untouched failure counter when the
overall operation succeeded. -/
theorem request_closed (svc : Svc) (now : Nat) (endpoint method params : String)
    (fetch : Nat → FetchOutcome)
    (hclosed : svc.cbState = "closed")
    (hmiss : isMutatingMethod method = true ∨
      (getFromCache svc.cache (getCacheKey endpoint params) now).1 = none) :
    (request svc now endpoint method params fetch).result = (executeRequest fetch).result ∧
    (request svc now endpoint method params fetch).attempts = (executeRequest fetch).attempts ∧
    (request svc now endpoint method params fetch).delays = (executeRequest fetch).delays ∧
    (request svc now endpoint method params fetch).cacheHit = false ∧
    (request svc now endpoint method params fetch).svc.token =
      (if (executeRequest fetch).unauthorized then none else svc.token) ∧
    (∀ data : String, (executeRequest fetch).result = .ok data →
      (request svc now endpoint method params fetch).svc.cbFailures = svc.cbFailures) := by
  have hgate : ∀ c : List (String × CacheEntry),
      breakerGate { svc with cache := c } now = (true, { svc with cache := c }) := by
    intro c
    unfold breakerGate
    simp [hclosed]
  by_cases hm : isMutatingMethod method
  all_goals {
    first
    | (unfold request
       rw [hm]
       simp only [Bool.not_true, Bool.false_eq_true, if_false]
       rw [hgate svc.cache])
    | (have hnone : (getFromCache svc.cache (getCacheKey endpoint params) now).1 = none := by
        rcases hmiss with h | h
        · exact absurd h (by simp [hm])
        · exact h
       unfold request
       rw [eq_false_of_ne_true hm]
       simp only [Bool.not_false, if_true]
       rw [hnone]
       rw [hgate (getFromCache svc.cache (getCacheKey endpoint params) now).2])
    cases hu : (executeRequest fetch).unauthorized <;>
      cases hr : (executeRequest fetch).result <;>
      simp [hu, hr, breakerSuccess, hclosed, handleRequestFailure] <;>
      split <;> simp [breakerSuccess, hclosed]
  }

/-! ## Claim C2: retry with exponential backoff -/

/-- Claim C2 counterexample: HTTP 501 is a 5xx-class failure
(`Response.ok` is false), yet `shouldRetry` rejects it (only
500/502/503/504 are listed), so a request whose attempts return 501 makes
exactly one network attempt and propagates the error without any retry -
refuting "every 5xx status is retried". -/
theorem C2_counterexample :
    respOk 501 = false ∧
    shouldRetry "HTTP 501: Not Implemented" = false ∧
    (request initSvc 0 "/x" "POST" jsonEmpty fetch501).attempts = 1 ∧
    (request initSvc 0 "/x" "POST" jsonEmpty fetch501).result =
      .error "HTTP 501: Not Implemented" := by
  exact ⟨rfl, by decide, rfl, rfl⟩

/-- Claim C2 (amended): a failure the code classifies as retryable (a
network-level failure, or a response whose error message carries one of
the statuses 500/502/503/504) is retried with exponential backoff
min(1000*2^attempt, 10000) ms, i.e. 1s then 2s then 4s, up to 3 retries
before the error is propagated; other 5xx statuses such as 501 are not
retried.  A request that fails twice with 503 and succeeds on the third
attempt returns the successful payload and leaves the circuit breaker's
failure counter unchanged. -/
theorem C2_retry_backoff :
    (∀ fetch : Nat → FetchOutcome, (∀ a, fetch a = FetchOutcome.netFail) →
      executeRequest fetch =
        { result := .error "Failed to fetch", delays := [1000, 2000, 4000],
          attempts := 4, unauthorized := false }) ∧
    (∀ svc : Svc, ∀ now : Nat, ∀ endpoint method params body : String,
      svc.cbState = "closed" →
      (isMutatingMethod method = true ∨
        (getFromCache svc.cache (getCacheKey endpoint params) now).1 = none) →
      (request svc now endpoint method params (fun attempt =>
          if attempt < 2 then FetchOutcome.resp 503 "Service Unavailable" ""
          else FetchOutcome.resp 200 "OK" body)).result = .ok body ∧
      (request svc now endpoint method params (fun attempt =>
          if attempt < 2 then FetchOutcome.resp 503 "Service Unavailable" ""
          else FetchOutcome.resp 200 "OK" body)).delays = [1000, 2000] ∧
      (request svc now endpoint method params (fun attempt =>
          if attempt < 2 then FetchOutcome.resp 503 "Service Unavailable" ""
          else FetchOutcome.resp 200 "OK" body)).attempts = 3 ∧
      (request svc now endpoint method params (fun attempt =>
          if attempt < 2 then FetchOutcome.resp 503 "Service Unavailable" ""
          else FetchOutcome.resp 200 "OK" body)).svc.cbFailures = svc.cbFailures) := by
  constructor
  · intro fetch hf
    have hfun : fetch = fun _ => FetchOutcome.netFail := funext hf
    rw [hfun]
    rfl
  · intro svc now endpoint method params body hclosed hmiss
    have hex : executeRequest (fun attempt =>
        if attempt < 2 then FetchOutcome.resp 503 "Service Unavailable" ""
        else FetchOutcome.resp 200 "OK" body) =
      { result := .ok body, delays := [1000, 2000], attempts := 3,
        unauthorized := false } := rfl
    obtain ⟨h1, h2, h3, _h4, _h5, h6⟩ :=
      request_closed svc now endpoint method params (fun attempt =>
        if attempt < 2 then FetchOutcome.resp 503 "Service Unavailable" ""
        else FetchOutcome.resp 200 "OK" body) hclosed hmiss
    refine ⟨?_, ?_, ?_, ?_⟩
    · rw [h1, hex]
    · rw [h3, hex]
    · rw [h2, hex]
    · exact h6 body (by rw [hex])

/-- Witness for C2_retry_backoff: all-network-failure run, and the
503/503/success scenario on the fresh service. -/
theorem C2_retry_backoff_witness :
    executeRequest (fun _ => FetchOutcome.netFail) =
      { result := .error "Failed to fetch", delays := [1000, 2000, 4000],
        attempts := 4, unauthorized := false } ∧
    (request initSvc 0 "/alerts" "POST" jsonEmpty (fun attempt =>
        if attempt < 2 then FetchOutcome.resp 503 "Service Unavailable" ""
        else FetchOutcome.resp 200 "OK" "payload")).result = .ok "payload" ∧
    (request initSvc 0 "/alerts" "POST" jsonEmpty (fun attempt =>
        if attempt < 2 then FetchOutcome.resp 503 "Service Unavailable" ""
        else FetchOutcome.resp 200 "OK" "payload")).delays = [1000, 2000] ∧
    (request initSvc 0 "/alerts" "POST" jsonEmpty (fun attempt =>
        if attempt < 2 then FetchOutcome.resp 503 "Service Unavailable" ""
        else FetchOutcome.resp 200 "OK" "payload")).attempts = 3 ∧
    (request initSvc 0 "/alerts" "POST" jsonEmpty (fun attempt =>
        if attempt < 2 then FetchOutcome.resp 503 "Service Unavailable" ""
        else FetchOutcome.resp 200 "OK" "payload")).svc.cbFailures = initSvc.cbFailures := by
  refine ⟨C2_retry_backoff.1 (fun _ => FetchOutcome.netFail) (fun _ => rfl), ?_⟩
  exact C2_retry_backoff.2 initSvc 0 "/alerts" "POST" jsonEmpty "payload" rfl (Or.inl rfl)

/-! ## Claim C3: 401 clears the token and is never retried -/

/-- Claim C3: a request whose first network attempt receives HTTP 401
raises "Authentication required" to the caller, clears the stored token,
and makes exactly one network attempt (no retry); and the
authentication-failure message is never classified as retryable. -/
theorem C3_auth_never_retried :
    (∀ svc : Svc, ∀ now : Nat, ∀ endpoint method params statusText body : String,
      ∀ fetch : Nat → FetchOutcome,
      svc.cbState = "closed" →
      (isMutatingMethod method = true ∨
        (getFromCache svc.cache (getCacheKey endpoint params) now).1 = none) →
      fetch 0 = .resp 401 statusText body →
      (request svc now endpoint method params fetch).result =
        .error "Authentication required" ∧
      (request svc now endpoint method params fetch).svc.token = none ∧
      (request svc now endpoint method params fetch).attempts = 1) ∧
    shouldRetry "Authentication required" = false := by
  constructor
  · intro svc now endpoint method params statusText body fetch hclosed hmiss h401
    have hex : executeRequest fetch =
        { result := .error "Authentication required", delays := [],
          attempts := 1, unauthorized := true } := by
      unfold executeRequest executeRequestAux
      rw [h401]
      simp [attemptOutcome, shouldRetry_auth]
    obtain ⟨h1, h2, _h3, _h4, h5, _h6⟩ :=
      request_closed svc now endpoint method params fetch hclosed hmiss
    refine ⟨?_, ?_, ?_⟩
    · rw [h1, hex]
    · rw [h5, hex]
      simp
    · rw [h2, hex]
  · exact shouldRetry_auth

/-- Witness for C3_auth_never_retried: a POST on the fresh service whose
attempts all return 401. -/
theorem C3_auth_never_retried_witness :
    (request initSvc 0 "/x" "POST" jsonEmpty fetch401).result =
      .error "Authentication required" ∧
    (request initSvc 0 "/x" "POST" jsonEmpty fetch401).svc.token = none ∧
    (request initSvc 0 "/x" "POST" jsonEmpty fetch401).attempts = 1 :=
  C3_auth_never_retried.1 initSvc 0 "/x" "POST" jsonEmpty "Unauthorized" "" fetch401
    rfl (Or.inl rfl) rfl

/-! ## Claim C4: cache invalidation after mutating calls -/

/-- Claim C4 counterexample: `createAlert` is a mutating POST that
completes successfully, yet the previously cached `/cameras` read
survives it and the next read is served from the cache with zero network
attempts - refuting "after any mutating call every previously cached
read response is invalidated". -/
theorem C4_counterexample :
    (createAlert svcCached 0 fetchOkPayload).result = .ok "payload" ∧
    (getCameras (createAlert svcCached 0 fetchOkPayload).svc 0 fetchOkPayload).cacheHit = true ∧
    (getCameras (createAlert svcCached 0 fetchOkPayload).svc 0 fetchOkPayload).attempts = 0 ∧
    (getCameras (createAlert svcCached 0 fetchOkPayload).svc 0 fetchOkPayload).result =
      .ok "cams" := by
  exact ⟨rfl, rfl, rfl, rfl⟩

/-- `breakerGate` never changes the cache. -/
theorem breakerGate_cache (svc : Svc) (now : Nat) :
    (breakerGate svc now).2.cache = svc.cache := by
  unfold breakerGate
  split
  · split <;> rfl
  · rfl

/-- A mutating request never writes to the cache: the cache after the
call is exactly the cache it started with. -/
theorem request_mutating_cache (svc : Svc) (now : Nat) (endpoint method params : String)
    (fetch : Nat → FetchOutcome) (hm : isMutatingMethod method = true) :
    (request svc now endpoint method params fetch).svc.cache = svc.cache := by
  unfold request
  rw [hm]
  simp only [Bool.not_true, Bool.false_eq_true, if_false]
  have hgc := breakerGate_cache { svc with cache := svc.cache } now
  rcases hg : breakerGate { svc with cache := svc.cache } now with ⟨allowed, svc2⟩
  rw [hg] at hgc
  cases allowed with
  | false => simpa using hgc
  | true =>
      cases hu : (executeRequest fetch).unauthorized <;>
        cases hr : (executeRequest fetch).result <;>
        simp [hu, hr, hm, breakerSuccess, handleRequestFailure] <;>
        first
        | (split <;> simp_all)
        | simp_all

/-- Claim C4 (amended): the camera mutations `addCamera`, `updateCamera`
and `deleteCamera` clear the entire cache before issuing their request
and never repopulate it, so afterwards every read of any key misses the
cache and (with a closed breaker) issues at least one network attempt;
other mutating calls such as `createAlert` do not invalidate the cache. -/
theorem C4_camera_mutations_clear_cache :
    (∀ svc : Svc, ∀ now : Nat, ∀ fetch : Nat → FetchOutcome,
      (addCamera svc now fetch).svc.cache = []) ∧
    (∀ svc : Svc, ∀ now : Nat, ∀ cameraId : String, ∀ fetch : Nat → FetchOutcome,
      (updateCamera svc now cameraId fetch).svc.cache = []) ∧
    (∀ svc : Svc, ∀ now : Nat, ∀ cameraId : String, ∀ fetch : Nat → FetchOutcome,
      (deleteCamera svc now cameraId fetch).svc.cache = []) ∧
    (∀ svc : Svc, ∀ now : Nat, ∀ endpoint method params : String,
      ∀ fetch : Nat → FetchOutcome,
      svc.cache = [] → svc.cbState = "closed" →
      (request svc now endpoint method params fetch).cacheHit = false ∧
      1 <= (request svc now endpoint method params fetch).attempts) := by
  refine ⟨?_, ?_, ?_, ?_⟩
  · intro svc now fetch
    exact request_mutating_cache (clearCache svc) now "/cameras" "POST" jsonEmpty fetch rfl
  · intro svc now cameraId fetch
    exact request_mutating_cache (clearCache svc) now ("/cameras/" ++ cameraId) "PUT"
      jsonEmpty fetch rfl
  · intro svc now cameraId fetch
    exact request_mutating_cache (clearCache svc) now ("/cameras/" ++ cameraId) "DELETE"
      jsonEmpty fetch rfl
  · intro svc now endpoint method params fetch hc hclosed
    have hmiss : isMutatingMethod method = true ∨
        (getFromCache svc.cache (getCacheKey endpoint params) now).1 = none := by
      right
      rw [hc]
      rfl
    obtain ⟨_h1, h2, _h3, h4, _h5, _h6⟩ :=
      request_closed svc now endpoint method params fetch hclosed hmiss
    refine ⟨h4, ?_⟩
    rw [h2]
    exact executeRequest_attempts_pos fetch

/-- Witness for C4_camera_mutations_clear_cache: addCamera on the cached
service empties the cache, and a fresh-service read misses it. -/
theorem C4_camera_mutations_clear_cache_witness :
    (addCamera svcCached 0 fetchOkPayload).svc.cache = [] ∧
    (updateCamera svcCached 0 "7" fetchOkPayload).svc.cache = [] ∧
    (deleteCamera svcCached 0 "7" fetchOkPayload).svc.cache = [] ∧
    (getCameras initSvc 0 fetchOkPayload).cacheHit = false ∧
    1 <= (getCameras initSvc 0 fetchOkPayload).attempts := by
  refine ⟨C4_camera_mutations_clear_cache.1 svcCached 0 fetchOkPayload,
    C4_camera_mutations_clear_cache.2.1 svcCached 0 "7" fetchOkPayload,
    C4_camera_mutations_clear_cache.2.2.1 svcCached 0 "7" fetchOkPayload, ?_, ?_⟩
  · exact (C4_camera_mutations_clear_cache.2.2.2 initSvc 0 "/cameras" "" jsonEmpty
      fetchOkPayload rfl rfl).1
  · exact (C4_camera_mutations_clear_cache.2.2.2 initSvc 0 "/cameras" "" jsonEmpty
      fetchOkPayload rfl rfl).2

/-! ## Claim C5: idempotent connect -/

/-- Claim C5: calling `connectToCamera` for a device that is already
connected (and still present in the device table) returns the stored
Connection object itself, leaves the state untouched, and performs no
`getUserMedia` call; and no execution path of `connectToCamera` ever
duplicates a device key in the active-stream map, so at most one active
Connection exists per device id. -/
theorem C5_idempotent_connect :
    (∀ st : CamState, ∀ cameraId : String, ∀ options : ConnectOptions,
      ∀ media : VideoConstraints → Except String MediaStream, ∀ now : Nat,
      ∀ conn : Connection,
      jmGet st.activeStreams cameraId = some conn →
      jmHas st.connectedCameras cameraId = true →
      connectToCamera st cameraId options media now =
        { result := .ok conn, st := st, mediaCalls := 0 }) ∧
    (∀ st : CamState, ∀ cameraId : String, ∀ options : ConnectOptions,
      ∀ media : VideoConstraints → Except String MediaStream, ∀ now : Nat,
      nodupKeys st.activeStreams →
      nodupKeys (connectToCamera st cameraId options media now).st.activeStreams) := by
  constructor
  · intro st cameraId options media now conn hconn hhas
    unfold connectToCamera
    rw [hhas, hconn]
    rfl
  · intro st cameraId options media now h
    unfold connectToCamera
    split
    · exact h
    · split
      · exact h
      · dsimp only
        split
        · exact h
        · split
          · exact h
          · split
            · exact h
            · dsimp only
              split
              · exact nodupKeys_jmSet st.activeStreams cameraId _ h
              · exact nodupKeys_jmSet st.activeStreams cameraId _ h

/-- Witness for C5_idempotent_connect on the connected state `camStateW`:
reconnecting `cam1` returns `connW` itself with no media call, even with
an oracle that would reject any `getUserMedia`. -/
theorem C5_idempotent_connect_witness :
    connectToCamera camStateW "cam1"
        { resolution := none, frameRate := none, facingMode := none }
        (fun _ => .error "getUserMedia must not be called") 60 =
      { result := .ok connW, st := camStateW, mediaCalls := 0 } ∧
    nodupKeys (connectToCamera camStateW "cam1"
        { resolution := none, frameRate := none, facingMode := none }
        (fun _ => .error "getUserMedia must not be called") 60).st.activeStreams := by
  constructor
  · exact C5_idempotent_connect.1 camStateW "cam1"
      { resolution := none, frameRate := none, facingMode := none }
      (fun _ => .error "getUserMedia must not be called") 60 connW rfl rfl
  · exact C5_idempotent_connect.2 camStateW "cam1"
      { resolution := none, frameRate := none, facingMode := none }
      (fun _ => .error "getUserMedia must not be called") 60
      (by simp [camStateW, nodupKeys])

/-! ## Claim C6: teardown convergence -/

/-- Claim C6: for a connected device, the explicit `disconnectCamera`
path and the track-ended path (the event ends the device's tracks, then
`handleStreamEnd` runs) leave identical active-stream maps, connection
statuses and camera tables, discard the same Connection object, and in
both cases every track of that Connection's stream ends up stopped. -/
theorem C6_teardown_convergence (st : CamState) (cameraId : String) (now : Nat)
    (conn : Connection) (h : jmGet st.activeStreams cameraId = some conn) :
    (disconnectCamera st cameraId now).1.activeStreams =
      (trackEndedTeardown st cameraId now).1.activeStreams ∧
    (disconnectCamera st cameraId now).1.connectionStatus =
      (trackEndedTeardown st cameraId now).1.connectionStatus ∧
    (disconnectCamera st cameraId now).1.connectedCameras =
      (trackEndedTeardown st cameraId now).1.connectedCameras ∧
    (disconnectCamera st cameraId now).2 = (trackEndedTeardown st cameraId now).2 ∧
    (∀ c : Connection, (disconnectCamera st cameraId now).2 = some c →
      ∀ t ∈ c.stream.tracks, t.stopped = true) := by
  simp only [disconnectCamera, trackEndedTeardown, markStreamEnded, handleStreamEnd, h]
  cases hcam : jmGet st.connectedCameras cameraId <;>
    simp [hcam, jmDelete_jmSet, jmGet_jmSet_self, stopStream, stopTrack]

/-- Witness for C6_teardown_convergence on `camStateW` and its live
connection `connW`. -/
theorem C6_teardown_convergence_witness :
    (disconnectCamera camStateW "cam1" 99).1.activeStreams =
      (trackEndedTeardown camStateW "cam1" 99).1.activeStreams ∧
    (disconnectCamera camStateW "cam1" 99).1.connectionStatus =
      (trackEndedTeardown camStateW "cam1" 99).1.connectionStatus ∧
    (disconnectCamera camStateW "cam1" 99).1.connectedCameras =
      (trackEndedTeardown camStateW "cam1" 99).1.connectedCameras ∧
    (disconnectCamera camStateW "cam1" 99).2 = (trackEndedTeardown camStateW "cam1" 99).2 ∧
    (∀ c : Connection, (disconnectCamera camStateW "cam1" 99).2 = some c →
      ∀ t ∈ c.stream.tracks, t.stopped = true) :=
  C6_teardown_convergence camStateW "cam1" 99 connW rfl

/-! ## Claim C10: discovery frame effect -/

/-- Processing any device list never touches the active-stream map. -/
theorem foldl_processDevice_activeStreams (caps : String → Capabilities) (now : Nat)
    (l : List DeviceInfo) (st : CamState) :
    (l.foldl (processDevice caps now) st).activeStreams = st.activeStreams := by
  induction l generalizing st with
  | nil => rfl
  | cons d rest ih =>
      rw [List.foldl_cons, ih]
      rfl

/-- A key that is already reported disconnected stays so through any
further `processDevice` calls (every status write is "disconnected"). -/
theorem foldl_processDevice_status_preserved (caps : String → Capabilities) (now : Nat)
    (l : List DeviceInfo) :
    ∀ st : CamState, ∀ k : String, getCameraStatus st k = "disconnected" →
      getCameraStatus (l.foldl (processDevice caps now) st) k = "disconnected" := by
  induction l with
  | nil => intro st k h; exact h
  | cons d rest ih =>
      intro st k h
      rw [List.foldl_cons]
      apply ih
      show (jmGet (jmSet st.connectionStatus d.deviceId "disconnected") k).getD "unknown" =
        "disconnected"
      rw [jmGet_jmSet]
      by_cases hk : k = d.deviceId
      · simp [hk]
      · simp only [hk, if_false]
        exact h

/-- Every device in the processed list ends with connection status
"disconnected". -/
theorem foldl_processDevice_status (caps : String → Capabilities) (now : Nat)
    (l : List DeviceInfo) :
    ∀ st : CamState, ∀ d ∈ l,
      getCameraStatus (l.foldl (processDevice caps now) st) d.deviceId = "disconnected" := by
  induction l with
  | nil => intro st d hd; cases hd
  | cons d0 rest ih =>
      intro st d hd
      rw [List.foldl_cons]
      rcases List.mem_cons.mp hd with h | h
      · subst h
        apply foldl_processDevice_status_preserved
        show (jmGet (jmSet st.connectionStatus d.deviceId "disconnected") d.deviceId).getD
          "unknown" = "disconnected"
        rw [jmGet_jmSet_self]
        rfl
      · exact ih (processDevice caps now st d0) d h

/-- `jmSet` only ever introduces its own key. -/
theorem jmHas_jmSet_imp (m : List (String × β)) (k0 : String) (v : β) (k : String)
    (h : jmHas (jmSet m k0 v) k = true) : k = k0 ∨ jmHas m k = true := by
  unfold jmHas at h ⊢
  rw [jmGet_jmSet] at h
  by_cases hk : k = k0
  · exact Or.inl hk
  · rw [if_neg hk] at h
    exact Or.inr h

/-- `jmSet` keeps every key that was already present. -/
theorem jmHas_jmSet_of (m : List (String × β)) (k0 : String) (v : β) (k : String)
    (h : jmHas m k = true) : jmHas (jmSet m k0 v) k = true := by
  unfold jmHas at h ⊢
  rw [jmGet_jmSet]
  by_cases hk : k = k0
  · simp [hk]
  · rw [if_neg hk]
    exact h

/-- Keys of the camera table after processing come from the starting
table or from the processed devices. -/
theorem foldl_processDevice_cameras_keys (caps : String → Capabilities) (now : Nat)
    (l : List DeviceInfo) :
    ∀ st : CamState, ∀ k : String,
      jmHas (l.foldl (processDevice caps now) st).connectedCameras k = true →
      jmHas st.connectedCameras k = true ∨ ∃ d ∈ l, d.deviceId = k := by
  induction l with
  | nil => intro st k h; exact Or.inl h
  | cons d0 rest ih =>
      intro st k h
      rw [List.foldl_cons] at h
      rcases ih _ k h with h' | h'
      · rcases jmHas_jmSet_imp st.connectedCameras d0.deviceId _ k h' with hk | hk
        · exact Or.inr ⟨d0, List.mem_cons_self d0 rest, hk.symm⟩
        · exact Or.inl hk
      · obtain ⟨d, hd, hk⟩ := h'
        exact Or.inr ⟨d, List.mem_cons_of_mem d0 hd, hk⟩

/-- Keys of the capability map after processing come from the starting
map or from the processed devices. -/
theorem foldl_processDevice_caps_keys (caps : String → Capabilities) (now : Nat)
    (l : List DeviceInfo) :
    ∀ st : CamState, ∀ k : String,
      jmHas (l.foldl (processDevice caps now) st).deviceCapabilities k = true →
      jmHas st.deviceCapabilities k = true ∨ ∃ d ∈ l, d.deviceId = k := by
  induction l with
  | nil => intro st k h; exact Or.inl h
  | cons d0 rest ih =>
      intro st k h
      rw [List.foldl_cons] at h
      rcases ih _ k h with h' | h'
      · have h'' : jmHas (jmSet st.deviceCapabilities d0.deviceId (caps d0.deviceId)) k =
            true := h'
        rcases jmHas_jmSet_imp _ _ _ _ h'' with hk | hk
        · exact Or.inr ⟨d0, List.mem_cons_self d0 rest, hk.symm⟩
        · exact Or.inl hk
      · obtain ⟨d, hd, hk⟩ := h'
        exact Or.inr ⟨d, List.mem_cons_of_mem d0 hd, hk⟩

/-- A key already present in the camera table survives any further
`processDevice` calls. -/
theorem foldl_processDevice_cameras_preserved (caps : String → Capabilities) (now : Nat)
    (l : List DeviceInfo) :
    ∀ st : CamState, ∀ k : String, jmHas st.connectedCameras k = true →
      jmHas (l.foldl (processDevice caps now) st).connectedCameras k = true := by
  induction l with
  | nil => exact fun st k h => h
  | cons d0 rest ih =>
      intro st k h
      rw [List.foldl_cons]
      apply ih
      exact jmHas_jmSet_of st.connectedCameras d0.deviceId _ k h


/-- Every processed device ends up present in the camera table. -/
theorem foldl_processDevice_cameras_present (caps : String → Capabilities) (now : Nat)
    (l : List DeviceInfo) :
    ∀ st : CamState, ∀ d ∈ l,
      jmHas (l.foldl (processDevice caps now) st).connectedCameras d.deviceId = true := by
  induction l with
  | nil => intro st d hd; cases hd
  | cons d0 rest ih =>
      intro st d hd
      rw [List.foldl_cons]
      rcases List.mem_cons.mp hd with h | h
      · subst h
        apply foldl_processDevice_cameras_preserved
        have hv : ∀ v : CameraInfo,
            jmHas (jmSet st.connectedCameras d.deviceId v) d.deviceId = true := by
          intro v
          unfold jmHas
          rw [jmGet_jmSet_self]
          rfl
        exact hv _
      · exact ih (processDevice caps now st d0) d h

/-- Claim C10: a re-discovery pass never removes or alters active-stream
entries (the map is exactly the one from before), rebuilds the device
table and capability map from scratch (their keys all come from the
discovered video inputs, and every discovered video input is present),
and sets every discovered device's connection status to "disconnected" -
including devices whose Connection is still live, so `getCameraStatus`
reports "disconnected" for a device whose stream is still active. -/
theorem C10_discovery_frame_effect (st : CamState) (devices : List DeviceInfo)
    (caps : String → Capabilities) (now : Nat) :
    (discoverDevices st devices caps now).activeStreams = st.activeStreams ∧
    (∀ d ∈ devices, d.kind = "videoinput" →
      getCameraStatus (discoverDevices st devices caps now) d.deviceId = "disconnected") ∧
    (∀ k : String,
      jmHas (discoverDevices st devices caps now).connectedCameras k = true →
      ∃ d ∈ devices, d.kind = "videoinput" ∧ d.deviceId = k) ∧
    (∀ k : String,
      jmHas (discoverDevices st devices caps now).deviceCapabilities k = true →
      ∃ d ∈ devices, d.kind = "videoinput" ∧ d.deviceId = k) ∧
    (∀ d ∈ devices, d.kind = "videoinput" →
      jmHas (discoverDevices st devices caps now).connectedCameras d.deviceId = true) ∧
    (∀ d ∈ devices, d.kind = "videoinput" → isConnected st d.deviceId = true →
      isConnected (discoverDevices st devices caps now) d.deviceId = true ∧
      getCameraStatus (discoverDevices st devices caps now) d.deviceId = "disconnected") := by
  have hfilter : ∀ d ∈ devices, d.kind = "videoinput" →
      d ∈ devices.filter (fun d => d.kind == "videoinput") := by
    intro d hd hk
    exact List.mem_filter.mpr ⟨hd, beq_iff_eq.mpr hk⟩
  have hstreams : (discoverDevices st devices caps now).activeStreams = st.activeStreams := by
    unfold discoverDevices
    exact foldl_processDevice_activeStreams caps now _ _
  have hstatus : ∀ d ∈ devices, d.kind = "videoinput" →
      getCameraStatus (discoverDevices st devices caps now) d.deviceId = "disconnected" := by
    intro d hd hk
    unfold discoverDevices
    exact foldl_processDevice_status caps now _ _ d (hfilter d hd hk)
  refine ⟨hstreams, hstatus, ?_, ?_, ?_, ?_⟩
  · intro k h
    unfold discoverDevices at h
    rcases foldl_processDevice_cameras_keys caps now _ _ k h with h' | h'
    · cases h'
    · obtain ⟨d, hd, hk⟩ := h'
      obtain ⟨hdev, hkind⟩ := List.mem_filter.mp hd
      exact ⟨d, hdev, beq_iff_eq.mp hkind, hk⟩
  · intro k h
    unfold discoverDevices at h
    rcases foldl_processDevice_caps_keys caps now _ _ k h with h' | h'
    · cases h'
    · obtain ⟨d, hd, hk⟩ := h'
      obtain ⟨hdev, hkind⟩ := List.mem_filter.mp hd
      exact ⟨d, hdev, beq_iff_eq.mp hkind, hk⟩
  · intro d hd hk
    unfold discoverDevices
    exact foldl_processDevice_cameras_present caps now _ _ d (hfilter d hd hk)
  · intro d hd hk hc
    refine ⟨?_, hstatus d hd hk⟩
    unfold isConnected at hc ⊢
    rw [hstreams]
    exact hc

/-- Witness for C10_discovery_frame_effect: re-discovery over the
connected state `camStateW` with one video device and one microphone
keeps the live stream but reports the device disconnected. -/
theorem C10_discovery_frame_effect_witness :
    (discoverDevices camStateW devicesW (fun _ => capsFHD) 70).activeStreams =
      camStateW.activeStreams ∧
    getCameraStatus (discoverDevices camStateW devicesW (fun _ => capsFHD) 70) "cam1" =
      "disconnected" ∧
    jmHas (discoverDevices camStateW devicesW (fun _ => capsFHD) 70).connectedCameras
      "cam1" = true ∧
    isConnected (discoverDevices camStateW devicesW (fun _ => capsFHD) 70) "cam1" = true := by
  have h := C10_discovery_frame_effect camStateW devicesW (fun _ => capsFHD) 70
  have hd : ({ deviceId := "cam1", kind := "videoinput", label := "USB Webcam" } :
      DeviceInfo) ∈ devicesW := by
    unfold devicesW
    exact List.mem_cons_self _ _
  refine ⟨h.1, ?_, ?_, ?_⟩
  · exact h.2.1 _ hd rfl
  · exact h.2.2.2.2.1 _ hd rfl
  · exact (h.2.2.2.2.2 _ hd rfl rfl).1
